import Mathlib

/-!
# Verification of the esp32-color-matching repository

Shallow embedding of the Python sources:

* `color_matcher_server.py` — the nearest-neighbour colour classifier
  (`DULUX_COLORS`, `calculate_color_distance`, `find_closest_color`,
  the `/` handler `color_match`);
* `mock_esp32_server.py` — the mock device (`device_state`,
  `update_settings`, `update_brightness`);
* `test_black_calibration.py` — `validate_black_levels`;
* the brightness optimiser of the spec (its implementation lives on the
  device firmware, outside this repository's Python sources, so it is
  modelled from the spec).

Python integers are embedded as `ℤ`.  The source computes the colour
distance as `math.sqrt((r1-r2)**2 + (g1-g2)**2 + (b1-b2)**2)`; the
embedding carries the radicand (an integer, at most `3 * 255^2 = 195075`
for byte inputs, but the algebra below is exact for all of `ℤ`).  Over
this range IEEE-754 double `sqrt` is correctly rounded and adjacent
integer radicands give square roots that differ by far more than one
ulp, so the float comparisons `distance < min_distance` of the source
coincide with the exact comparisons of the radicands; theorems state
the Euclidean distance itself as `Real.sqrt` of the radicand.
-/

/-- An entry of the reference-colour catalogue (`DULUX_COLORS` items in
`color_matcher_server.py`): name, Dulux code, RGB components and light
reflectance value.  `lrv` is a decimal in the source and is embedded as
an exact rational. -/
structure ReferenceColor where
  name : String
  code : String
  r : ℤ
  g : ℤ
  b : ℤ
  lrv : ℚ
deriving DecidableEq

/-- The sample Dulux colour database of `color_matcher_server.py`
(lines 16–65). -/
def DULUX_COLORS : List ReferenceColor :=
  [ ⟨"Vivid White", "W01A1", 255, 255, 255, 90⟩,
    ⟨"First Love Quarter", "P08H1Q", 255, 248, 240, 436/5⟩,
    ⟨"Pink Tutu Quarter", "P04H1Q", 255, 233, 247, 422/5⟩,
    ⟨"Cruel Sea", "P29A9", 33, 26, 27, 11/2⟩,
    ⟨"Decorum", "P02D3", 179, 154, 161, 40⟩,
    ⟨"Deep Leather", "P05B9", 39, 17, 0, 59/10⟩ ]

/-- Radicand of `calculate_color_distance` (`color_matcher_server.py`
lines 67–69): the source returns `math.sqrt` of this value; the
Euclidean distance is `Real.sqrt` of it. -/
def calculate_color_distance_sq (r1 g1 b1 r2 g2 b2 : ℤ) : ℤ :=
  (r1 - r2) ^ 2 + (g1 - g2) ^ 2 + (b1 - b2) ^ 2

/-- Squared distance from a target RGB to a catalogue entry. -/
def distSq (r g b : ℤ) (c : ReferenceColor) : ℤ :=
  calculate_color_distance_sq r g b c.r c.g c.b

/-- The loop of `find_closest_color` (lines 76–84).  The accumulator is
`none` for the initial `best_match = None, min_distance = inf` pair and
`some (best, minDist)` afterwards; with a `none` accumulator the test
`distance < inf` always succeeds, exactly as in the source. -/
def find_from (r g b : ℤ) (acc : Option (ReferenceColor × ℤ)) :
    List ReferenceColor → Option (ReferenceColor × ℤ)
  | [] => acc
  | color :: rest =>
      let distance := calculate_color_distance_sq r g b color.r color.g color.b
      match acc with
      | none => find_from r g b (some (color, distance)) rest
      | some (best, minDist) =>
          if distance < minDist then find_from r g b (some (color, distance)) rest
          else find_from r g b (some (best, minDist)) rest

/-- `find_closest_color` (`color_matcher_server.py` lines 71–86),
generalised over the catalogue it iterates (the source iterates the
global `DULUX_COLORS`).  Returns the best match together with the
radicand of its distance, or `none` for the source's
`(None, inf)` on an empty catalogue. -/
def find_closest_color (r g b : ℤ) (catalog : List ReferenceColor) :
    Option (ReferenceColor × ℤ) :=
  find_from r g b none catalog

/-- Response of the `/` handler `color_match`
(`color_matcher_server.py` lines 88–146): RGB validation error (HTTP
400), success payload, or the "No color match found" error (HTTP 404). -/
inductive MatchResponse where
  | invalidRgb : MatchResponse
  | ok (found : ReferenceColor) (distanceSq : ℤ) (input : ℤ × ℤ × ℤ) : MatchResponse
  | noMatch : MatchResponse
deriving DecidableEq

/-- The `/` handler `color_match` (lines 88–146): validates
`0 <= r,g,b <= 255`, then searches `DULUX_COLORS`. -/
def color_match (r g b : ℤ) : MatchResponse :=
  if 0 ≤ r ∧ r ≤ 255 ∧ 0 ≤ g ∧ g ≤ 255 ∧ 0 ≤ b ∧ b ≤ 255 then
    match find_closest_color r g b DULUX_COLORS with
    | some (found, distance) => .ok found distance (r, g, b)
    | none => .noMatch
  else .invalidRgb

/-! ## Selection invariant of the search loop -/

lemma distSq_nonneg (r g b : ℤ) (c : ReferenceColor) : 0 ≤ distSq r g b c := by
  unfold distSq calculate_color_distance_sq
  positivity

/-- Invariant of `find_from` run from a `some` accumulator: the result
is the running best, no larger than the incoming minimum and than every
distance of the remaining list, and if it changed then it is the first
entry of the remaining list that strictly improved on everything seen
before it. -/
lemma find_from_some_spec (r g b : ℤ) :
    ∀ (l : List ReferenceColor) (best : ReferenceColor) (dmin : ℤ),
      ∃ c d, find_from r g b (some (best, dmin)) l = some (c, d) ∧
        d ≤ dmin ∧
        (∀ c' ∈ l, d ≤ distSq r g b c') ∧
        ((c = best ∧ d = dmin) ∨
          ∃ pre post, l = pre ++ c :: post ∧ d = distSq r g b c ∧
            d < dmin ∧ ∀ c' ∈ pre, d < distSq r g b c') := by
  intro l
  induction l with
  | nil =>
      intro best dmin
      exact ⟨best, dmin, rfl, le_refl _, by simp, Or.inl ⟨rfl, rfl⟩⟩
  | cons color rest ih =>
      intro best dmin
      by_cases hlt : calculate_color_distance_sq r g b color.r color.g color.b < dmin
      · obtain ⟨c, d, heq, hle, hmin, hcase⟩ :=
          ih color (calculate_color_distance_sq r g b color.r color.g color.b)
        refine ⟨c, d, ?_, ?_, ?_, ?_⟩
        · simpa [find_from, hlt] using heq
        · exact le_of_lt (lt_of_le_of_lt hle hlt)
        · intro c' hc'
          rcases List.mem_cons.mp hc' with rfl | hc'
          · exact hle
          · exact hmin c' hc'
        · rcases hcase with ⟨hc, hd⟩ | ⟨pre, post, hsplit, hd, hdlt, hpre⟩
          · refine Or.inr ⟨[], rest, by simp [hc], by rw [hc]; exact hd, hd ▸ hlt, by simp⟩
          · refine Or.inr ⟨color :: pre, post, by simp [hsplit], hd, hdlt.trans hlt, ?_⟩
            intro c' hc'
            rcases List.mem_cons.mp hc' with rfl | hc'
            · exact hdlt
            · exact hpre c' hc'
      · obtain ⟨c, d, heq, hle, hmin, hcase⟩ := ih best dmin
        refine ⟨c, d, ?_, hle, ?_, ?_⟩
        · simpa [find_from, hlt] using heq
        · intro c' hc'
          rcases List.mem_cons.mp hc' with rfl | hc'
          · exact le_trans hle (not_lt.mp hlt)
          · exact hmin c' hc'
        · rcases hcase with ⟨hc, hd⟩ | ⟨pre, post, hsplit, hd, hdlt, hpre⟩
          · exact Or.inl ⟨hc, hd⟩
          · refine Or.inr ⟨color :: pre, post, by simp [hsplit], hd, hdlt, ?_⟩
            intro c' hc'
            rcases List.mem_cons.mp hc' with rfl | hc'
            · exact lt_of_lt_of_le hdlt (not_lt.mp hlt)
            · exact hpre c' hc'

/-- The full search on a non-empty catalogue: the result is an entry of
the catalogue, its recorded value is its own squared distance, it
minimises the squared distance, and every entry strictly before it has
a strictly larger squared distance. -/
lemma find_closest_color_spec (r g b : ℤ) (catalog : List ReferenceColor)
    (hcat : catalog ≠ []) :
    ∃ c d pre post, find_closest_color r g b catalog = some (c, d) ∧
      catalog = pre ++ c :: post ∧
      d = distSq r g b c ∧
      (∀ c' ∈ catalog, d ≤ distSq r g b c') ∧
      (∀ c' ∈ pre, d < distSq r g b c') := by
  match catalog, hcat with
  | color :: rest, _ =>
      obtain ⟨c, d, heq, hle, hmin, hcase⟩ :=
        find_from_some_spec r g b rest color (distSq r g b color)
      have hrun : find_closest_color r g b (color :: rest) = some (c, d) := by
        simpa [find_closest_color, find_from, distSq] using heq
      rcases hcase with ⟨hc, hd⟩ | ⟨pre, post, hsplit, hd, hdlt, hpre⟩
      · refine ⟨c, d, [], rest, hrun, by simp [hc], by rw [hc]; exact hd, ?_, by simp⟩
        intro c' hc'
        rcases List.mem_cons.mp hc' with rfl | hc'
        · exact le_of_eq hd
        · exact hmin c' hc'
      · refine ⟨c, d, color :: pre, post, hrun, by simp [hsplit], hd, ?_, ?_⟩
        · intro c' hc'
          rcases List.mem_cons.mp hc' with rfl | hc'
          · exact le_of_lt hdlt
          · exact hmin c' hc'
        · intro c' hc'
          rcases List.mem_cons.mp hc' with rfl | hc'
          · exact hdlt
          · exact hpre c' hc'

/-! ## Claim C1 -/

/-- C1: for every RGB input and every non-empty catalogue,
`find_closest_color` returns a catalogue entry together with its
distance (the radicand `d`; the Euclidean distance is `Real.sqrt d`),
that entry minimises the Euclidean distance over the whole catalogue,
and every entry strictly before it in catalogue iteration order has a
strictly larger Euclidean distance — the strictly-less comparison only
updates the best match, so the first entry attaining the minimum wins. -/
theorem find_closest_color_returns_min (r g b : ℤ) (catalog : List ReferenceColor)
    (hcat : catalog ≠ []) :
    ∃ c d pre post,
      find_closest_color r g b catalog = some (c, d) ∧
      catalog = pre ++ c :: post ∧
      d = calculate_color_distance_sq r g b c.r c.g c.b ∧
      (∀ c' ∈ catalog,
        Real.sqrt (d : ℝ) ≤
          Real.sqrt ((calculate_color_distance_sq r g b c'.r c'.g c'.b : ℤ) : ℝ)) ∧
      (∀ c' ∈ pre,
        Real.sqrt (d : ℝ) <
          Real.sqrt ((calculate_color_distance_sq r g b c'.r c'.g c'.b : ℤ) : ℝ)) := by
  obtain ⟨c, d, pre, post, hrun, hsplit, hd, hmin, hpre⟩ :=
    find_closest_color_spec r g b catalog hcat
  have hd0 : (0 : ℝ) ≤ (d : ℝ) := by
    have := distSq_nonneg r g b c
    rw [← hd] at this
    exact_mod_cast this
  refine ⟨c, d, pre, post, hrun, hsplit, hd, ?_, ?_⟩
  · intro c' hc'
    exact Real.sqrt_le_sqrt (by exact_mod_cast hmin c' hc')
  · intro c' hc'
    exact Real.sqrt_lt_sqrt hd0 (by exact_mod_cast hpre c' hc')

/-- Witness for C1 at the concrete input `(250, 252, 255)` against the
shipped catalogue. -/
theorem find_closest_color_returns_min_witness :
    DULUX_COLORS ≠ [] ∧
    (∃ c d pre post,
      find_closest_color 250 252 255 DULUX_COLORS = some (c, d) ∧
      DULUX_COLORS = pre ++ c :: post ∧
      d = calculate_color_distance_sq 250 252 255 c.r c.g c.b ∧
      (∀ c' ∈ DULUX_COLORS,
        Real.sqrt (d : ℝ) ≤
          Real.sqrt ((calculate_color_distance_sq 250 252 255 c'.r c'.g c'.b : ℤ) : ℝ)) ∧
      (∀ c' ∈ pre,
        Real.sqrt (d : ℝ) <
          Real.sqrt ((calculate_color_distance_sq 250 252 255 c'.r c'.g c'.b : ℤ) : ℝ))) :=
  ⟨by simp [DULUX_COLORS],
   find_closest_color_returns_min 250 252 255 DULUX_COLORS (by simp [DULUX_COLORS])⟩

/-! ## Claim C6 -/

/-- C6: the classifier fails (returns the source's `(None, inf)`,
reported upstream as the empty-catalogue error) if and only if the
catalogue is empty; on every non-empty catalogue it always returns
some match. -/
theorem find_closest_color_none_iff_empty (r g b : ℤ) (catalog : List ReferenceColor) :
    find_closest_color r g b catalog = none ↔ catalog = [] := by
  constructor
  · intro hnone
    cases catalog with
    | nil => rfl
    | cons color rest =>
        obtain ⟨c, d, _, _, hrun, _⟩ :=
          find_closest_color_spec r g b (color :: rest) (by simp)
        rw [hrun] at hnone
        exact absurd hnone (by simp)
  · rintro rfl
    rfl

/-- Witness for C6: both directions at concrete catalogues. -/
theorem find_closest_color_none_iff_empty_witness :
    find_closest_color 10 20 30 [] = none ∧
    find_closest_color 10 20 30 DULUX_COLORS ≠ none :=
  ⟨(find_closest_color_none_iff_empty 10 20 30 []).mpr rfl,
   fun h => by
     simpa [DULUX_COLORS] using (find_closest_color_none_iff_empty 10 20 30 DULUX_COLORS).mp h⟩

/-! ## Claim C7 -/

/-- C7: with the shipped catalogue (containing Vivid White
`(255,255,255)` and Cruel Sea `(33,26,27)`), classifying
`(250,252,255)` returns Vivid White with squared distance `34`
(Euclidean distance `Real.sqrt 34 ≈ 5.83`), and classifying
`(30,25,30)` returns Cruel Sea. -/
theorem find_closest_color_concrete_scenarios :
    find_closest_color 250 252 255 DULUX_COLORS =
      some (⟨"Vivid White", "W01A1", 255, 255, 255, 90⟩, 34) ∧
    (5.83 : ℝ) < Real.sqrt ((34 : ℤ) : ℝ) ∧
    Real.sqrt ((34 : ℤ) : ℝ) < 5.84 ∧
    find_closest_color 30 25 30 DULUX_COLORS =
      some (⟨"Cruel Sea", "P29A9", 33, 26, 27, 11/2⟩, 19) := by
  refine ⟨by rfl, ?_, ?_, by rfl⟩
  · exact (Real.lt_sqrt (by norm_num)).mpr (by norm_num)
  · exact (Real.sqrt_lt' (by norm_num)).mpr (by norm_num)

/-! ## Claim C8 -/

/-- C8: classification is a pure function — two invocations on the same
catalogue and input are identical — and when the input RGB coincides
with the RGB of a catalogue entry (the entry with that RGB being unique
in the catalogue, as it is in the shipped one), the classifier returns
exactly that entry with distance `0`. -/
theorem find_closest_color_deterministic_exact (r g b : ℤ)
    (catalog : List ReferenceColor) (c : ReferenceColor) (hmem : c ∈ catalog)
    (hr : c.r = r) (hg : c.g = g) (hb : c.b = b)
    (huniq : ∀ c' ∈ catalog, c'.r = r → c'.g = g → c'.b = b → c' = c) :
    find_closest_color r g b catalog = find_closest_color r g b catalog ∧
    find_closest_color r g b catalog = some (c, 0) := by
  refine ⟨rfl, ?_⟩
  have hcat : catalog ≠ [] := by
    rintro rfl
    simp at hmem
  obtain ⟨c₀, d, pre, post, hrun, hsplit, hd, hmin, _⟩ :=
    find_closest_color_spec r g b catalog hcat
  have hdc : distSq r g b c = 0 := by
    unfold distSq calculate_color_distance_sq
    rw [hr, hg, hb]
    ring
  have hd0 : d = 0 := by
    have hle : d ≤ 0 := hdc ▸ hmin c hmem
    have hge : 0 ≤ d := hd ▸ distSq_nonneg r g b c₀
    omega
  have hsq : (r - c₀.r) ^ 2 + (g - c₀.g) ^ 2 + (b - c₀.b) ^ 2 = 0 := by
    have h := hd.symm.trans hd0
    unfold distSq calculate_color_distance_sq at h
    exact h
  have hr0 : c₀.r = r := by nlinarith [sq_nonneg (r - c₀.r), sq_nonneg (g - c₀.g), sq_nonneg (b - c₀.b)]
  have hg0 : c₀.g = g := by nlinarith [sq_nonneg (r - c₀.r), sq_nonneg (g - c₀.g), sq_nonneg (b - c₀.b)]
  have hb0 : c₀.b = b := by nlinarith [sq_nonneg (r - c₀.r), sq_nonneg (g - c₀.g), sq_nonneg (b - c₀.b)]
  have hmem₀ : c₀ ∈ catalog := by
    rw [hsplit]
    exact List.mem_append_right _ (List.mem_cons_self _ _)
  have hc₀ : c₀ = c := huniq c₀ hmem₀ hr0 hg0 hb0
  rw [hrun, hc₀, hd0]

/-- Witness for C8 at input `(255,255,255)` and the Vivid White entry
of the shipped catalogue. -/
theorem find_closest_color_deterministic_exact_witness :
    find_closest_color 255 255 255 DULUX_COLORS =
      find_closest_color 255 255 255 DULUX_COLORS ∧
    find_closest_color 255 255 255 DULUX_COLORS =
      some (⟨"Vivid White", "W01A1", 255, 255, 255, 90⟩, 0) :=
  find_closest_color_deterministic_exact 255 255 255 DULUX_COLORS
    ⟨"Vivid White", "W01A1", 255, 255, 255, 90⟩
    (by unfold DULUX_COLORS; exact List.mem_cons_self _ _) rfl rfl rfl
    (by
      intro c' hc' hr hg hb
      simp only [DULUX_COLORS, List.mem_cons, List.not_mem_nil, or_false] at hc'
      rcases hc' with rfl | rfl | rfl | rfl | rfl | rfl
      · rfl
      · exact absurd hg (by decide)
      · exact absurd hg (by decide)
      · exact absurd hr (by decide)
      · exact absurd hr (by decide)
      · exact absurd hr (by decide))

/-! ## Mock ESP32 device (`mock_esp32_server.py`)

`device_state` is a mutable global dict; the fields below are the ones
read or written by the embedded handlers (`update_settings`,
`update_brightness`).  The remaining entries (scan state, network
information) are touched by no modelled operation and are omitted. -/

/-- The mutable device settings of `device_state`
(`mock_esp32_server.py` lines 16–38). -/
structure DeviceState where
  autoZeroMode : ℤ
  autoZeroFreq : ℤ
  waitTime : ℤ
  atime : ℤ
  again : ℤ
  brightness : ℤ
  ledState : Bool
deriving DecidableEq

/-- Initial values of `device_state` in the source. -/
def initial_device_state : DeviceState :=
  { autoZeroMode := 1, autoZeroFreq := 127, waitTime := 0,
    atime := 56, again := 3, brightness := 128, ledState := false }

/-- A JSON body for `POST /settings`: each recognised key may be absent
(`none`) or present with an (already `int()`-converted) value; unknown
keys are ignored by the handler and are not modelled. -/
structure SettingsRequest where
  autoZeroMode : Option ℤ := none
  autoZeroFreq : Option ℤ := none
  waitTime : Option ℤ := none
  atime : Option ℤ := none
  again : Option ℤ := none
  brightness : Option ℤ := none
  ledState : Option Bool := none
deriving DecidableEq

/-- The three HTTP-400 validation errors of `update_settings`
(`mock_esp32_server.py` lines 64, 75, 86); the message formatting is
plumbing and only the kind and offending value are modelled. -/
inductive SettingsError where
  | invalidAutoZeroMode (value : ℤ) : SettingsError
  | invalidAutoZeroFreq (value : ℤ) : SettingsError
  | invalidWaitTime (value : ℤ) : SettingsError
deriving DecidableEq

/-- `update_settings` lines 56–64: validate and update `autoZeroMode`
(must be in `{0, 1}`); an invalid value returns HTTP 400 immediately. -/
def set_autoZeroMode (req : SettingsRequest) (s : DeviceState) :
    DeviceState × Option SettingsError :=
  match req.autoZeroMode with
  | none => (s, none)
  | some value =>
      if 0 ≤ value ∧ value ≤ 1 then ({ s with autoZeroMode := value }, none)
      else (s, some (.invalidAutoZeroMode value))

/-- `update_settings` lines 67–75: validate and update `autoZeroFreq`
(range `[0, 255]`). -/
def set_autoZeroFreq (req : SettingsRequest) (s : DeviceState) :
    DeviceState × Option SettingsError :=
  match req.autoZeroFreq with
  | none => (s, none)
  | some value =>
      if 0 ≤ value ∧ value ≤ 255 then ({ s with autoZeroFreq := value }, none)
      else (s, some (.invalidAutoZeroFreq value))

/-- `update_settings` lines 78–86: validate and update `waitTime`
(range `[0, 255]`). -/
def set_waitTime (req : SettingsRequest) (s : DeviceState) :
    DeviceState × Option SettingsError :=
  match req.waitTime with
  | none => (s, none)
  | some value =>
      if 0 ≤ value ∧ value ≤ 255 then ({ s with waitTime := value }, none)
      else (s, some (.invalidWaitTime value))

/-- `update_settings` lines 89–91: `atime` is stored with no range
check. -/
def set_atime (req : SettingsRequest) (s : DeviceState) : DeviceState :=
  match req.atime with
  | none => s
  | some value => { s with atime := value }

/-- `update_settings` lines 93–95: `again` is stored with no range
check. -/
def set_again (req : SettingsRequest) (s : DeviceState) : DeviceState :=
  match req.again with
  | none => s
  | some value => { s with again := value }

/-- `update_settings` lines 97–99: `brightness` is stored with no range
check. -/
def set_brightness (req : SettingsRequest) (s : DeviceState) : DeviceState :=
  match req.brightness with
  | none => s
  | some value => { s with brightness := value }

/-- `update_settings` lines 101–103: `ledState` is stored after `bool()`
conversion. -/
def set_ledState (req : SettingsRequest) (s : DeviceState) : DeviceState :=
  match req.ledState with
  | none => s
  | some value => { s with ledState := value }

/-- Sequencing of the handler's blocks: a `return jsonify(error), 400`
aborts the rest of the handler but keeps the mutations already made to
the global `device_state`. -/
def andThenSet (r : DeviceState × Option SettingsError)
    (f : DeviceState → DeviceState × Option SettingsError) :
    DeviceState × Option SettingsError :=
  match r with
  | (s, none) => f s
  | (s, some e) => (s, some e)

/-- The `POST /settings` handler `update_settings`
(`mock_esp32_server.py` lines 46–110): fields are processed in the
source's fixed order; the first out-of-range validated field returns an
error, leaving the remaining fields unprocessed, while mutations made
before it persist.  Returns the state of the global dict after the
request and the error of the response, if any. -/
def update_settings (s : DeviceState) (req : SettingsRequest) :
    DeviceState × Option SettingsError :=
  andThenSet (set_autoZeroMode req s) fun s1 =>
  andThenSet (set_autoZeroFreq req s1) fun s2 =>
  andThenSet (set_waitTime req s2) fun s3 =>
  (set_ledState req (set_brightness req (set_again req (set_atime req s3))), none)

/-- The `POST /brightness` handler `update_brightness`
(`mock_esp32_server.py` lines 135–150): `data.get('brightness', 128)`,
validated against `[0, 255]`. -/
def update_brightness (s : DeviceState) (data_brightness : Option ℤ) :
    DeviceState × Option String :=
  let brightness := data_brightness.getD 128
  if 0 ≤ brightness ∧ brightness ≤ 255 then
    ({ s with brightness := brightness }, none)
  else (s, some "Brightness must be 0-255")

/-! ## Claim C3 -/

/-- C3 counterexample: in a single request carrying an out-of-range
`autoZeroMode` together with an in-range `waitTime`, the in-range value
is NOT stored (the handler returns at the first invalid field), so "every
in-range value is stored exactly as supplied" fails as stated. -/
theorem update_settings_inrange_after_invalid_not_stored :
    update_settings initial_device_state { autoZeroMode := some 5, waitTime := some 10 } =
      (initial_device_state, some (.invalidAutoZeroMode 5)) ∧
    (update_settings initial_device_state
      { autoZeroMode := some 5, waitTime := some 10 }).1.waitTime ≠ 10 := by
  decide

/-- C3 amended: each of the three calibration fields is validated
against its range (`autoZeroMode ∈ {0,1}`, `autoZeroFreq ∈ [0,255]`,
`waitTime ∈ [0,255]`); a request whose only field is out of range is
rejected with that field's error and leaves the state unchanged, and a
request whose only field is in range stores the value exactly as
supplied (in a multi-field request this holds for a field provided no
earlier-processed field was out of range). -/
theorem update_settings_field_validation (s : DeviceState) (v1 v2 w1 w2 : ℤ)
    (h1 : 0 ≤ v1 ∧ v1 ≤ 1) (h2 : 0 ≤ v2 ∧ v2 ≤ 255)
    (h3 : ¬(0 ≤ w1 ∧ w1 ≤ 1)) (h4 : ¬(0 ≤ w2 ∧ w2 ≤ 255)) :
    update_settings s { autoZeroMode := some v1 } = ({ s with autoZeroMode := v1 }, none) ∧
    update_settings s { autoZeroFreq := some v2 } = ({ s with autoZeroFreq := v2 }, none) ∧
    update_settings s { waitTime := some v2 } = ({ s with waitTime := v2 }, none) ∧
    update_settings s { autoZeroMode := some w1 } =
      (s, some (.invalidAutoZeroMode w1)) ∧
    update_settings s { autoZeroFreq := some w2 } =
      (s, some (.invalidAutoZeroFreq w2)) ∧
    update_settings s { waitTime := some w2 } = (s, some (.invalidWaitTime w2)) := by
  simp [update_settings, andThenSet, set_autoZeroMode, set_autoZeroFreq, set_waitTime,
    set_atime, set_again, set_brightness, set_ledState, h1, h2, h3, h4]

/-- Witness for the amended C3 at concrete values `1, 200, 5, 300`. -/
theorem update_settings_field_validation_witness :
    update_settings initial_device_state { autoZeroMode := some 1 } =
      ({ initial_device_state with autoZeroMode := 1 }, none) ∧
    update_settings initial_device_state { autoZeroFreq := some 200 } =
      ({ initial_device_state with autoZeroFreq := 200 }, none) ∧
    update_settings initial_device_state { waitTime := some 200 } =
      ({ initial_device_state with waitTime := 200 }, none) ∧
    update_settings initial_device_state { autoZeroMode := some 5 } =
      (initial_device_state, some (.invalidAutoZeroMode 5)) ∧
    update_settings initial_device_state { autoZeroFreq := some 300 } =
      (initial_device_state, some (.invalidAutoZeroFreq 300)) ∧
    update_settings initial_device_state { waitTime := some 300 } =
      (initial_device_state, some (.invalidWaitTime 300)) :=
  update_settings_field_validation initial_device_state 1 200 5 300
    (by decide) (by decide) (by decide) (by decide)

/-! ## Claim C4 -/

/-- C4 counterexample: `update_settings` (the settings-update
operation) stores an out-of-range brightness of `300` without any
rejection — the stored brightness changes. -/
theorem update_settings_brightness_not_validated :
    update_settings initial_device_state { brightness := some 300 } =
      ({ initial_device_state with brightness := 300 }, none) ∧
    (update_settings initial_device_state { brightness := some 300 }).1.brightness ≠
      initial_device_state.brightness := by
  decide

/-- C4 amended: `update_settings` applies `brightness` with no range
validation (any supplied integer is stored); only the dedicated
brightness endpoint `update_brightness` enforces `[0,255]`: it rejects
out-of-range values leaving the stored brightness unchanged and applies
in-range values. -/
theorem brightness_validation_endpoints (s : DeviceState) (v w : ℤ)
    (hv : 0 ≤ v ∧ v ≤ 255) (hw : ¬(0 ≤ w ∧ w ≤ 255)) :
    update_settings s { brightness := some w } = ({ s with brightness := w }, none) ∧
    update_brightness s (some v) = ({ s with brightness := v }, none) ∧
    update_brightness s (some w) = (s, some "Brightness must be 0-255") := by
  simp [update_settings, andThenSet, set_autoZeroMode, set_autoZeroFreq, set_waitTime,
    set_atime, set_again, set_brightness, set_ledState, update_brightness, hv, hw]

/-- Witness for the amended C4 at `v = 200`, `w = 300`. -/
theorem brightness_validation_endpoints_witness :
    update_settings initial_device_state { brightness := some 300 } =
      ({ initial_device_state with brightness := 300 }, none) ∧
    update_brightness initial_device_state (some 200) =
      ({ initial_device_state with brightness := 200 }, none) ∧
    update_brightness initial_device_state (some 300) =
      (initial_device_state, some "Brightness must be 0-255") :=
  brightness_validation_endpoints initial_device_state 200 300 (by decide) (by decide)

/-! ## Claim C5 -/

/-- C5 counterexample: request `{autoZeroFreq: 300, waitTime: 10}` —
the out-of-range `autoZeroFreq` makes the handler return before the
in-range `waitTime` is processed, so the fields are not applied
individually. -/
theorem update_settings_not_per_field_independent :
    update_settings initial_device_state { autoZeroFreq := some 300, waitTime := some 10 } =
      (initial_device_state, some (.invalidAutoZeroFreq 300)) ∧
    (update_settings initial_device_state
      { autoZeroFreq := some 300, waitTime := some 10 }).1.waitTime ≠ 10 := by
  decide

/-- C5 amended: fields are processed in the source's fixed order
(`autoZeroMode`, `autoZeroFreq`, `waitTime`, then the unvalidated
fields); the first out-of-range validated field aborts the request with
an error: fields processed before it are applied and kept (no
rollback), every field after it is left unchanged regardless of its
value. -/
theorem update_settings_stops_at_first_invalid (s : DeviceState)
    (m f w a g br : ℤ) (l : Bool)
    (hm : 0 ≤ m ∧ m ≤ 1) (hf : ¬(0 ≤ f ∧ f ≤ 255)) :
    update_settings s
      { autoZeroMode := some m, autoZeroFreq := some f, waitTime := some w,
        atime := some a, again := some g, brightness := some br, ledState := some l } =
      ({ s with autoZeroMode := m }, some (.invalidAutoZeroFreq f)) := by
  simp [update_settings, andThenSet, set_autoZeroMode, set_autoZeroFreq, hm, hf]

/-- Witness for the amended C5. -/
theorem update_settings_stops_at_first_invalid_witness :
    update_settings initial_device_state
      { autoZeroMode := some 0, autoZeroFreq := some 300, waitTime := some 10,
        atime := some 100, again := some 4, brightness := some 200,
        ledState := some true } =
      ({ initial_device_state with autoZeroMode := 0 },
        some (.invalidAutoZeroFreq 300)) :=
  update_settings_stops_at_first_invalid initial_device_state 0 300 10 100 4 200 true
    (by decide) (by decide)

/-! ## Claim C10 -/

/-- C10: `atime`, `again` and `ledState` are applied with no range
validation: every supplied integer (and every boolean) is stored as
given and the request succeeds, with no rejection branch. -/
theorem update_settings_unvalidated_fields (s : DeviceState) (a g : ℤ) (l : Bool) :
    update_settings s { atime := some a, again := some g, ledState := some l } =
      ({ s with atime := a, again := g, ledState := l }, none) := by
  simp [update_settings, andThenSet, set_autoZeroMode, set_autoZeroFreq, set_waitTime,
    set_atime, set_again, set_brightness, set_ledState]

/-! ## Black-level validation (`test_black_calibration.py`)

`validate_black_levels` (lines 91–121) reads the `blackCalibration` and
`whiteCalibration` objects of the status payload and checks the
channels `x`, `y`, `z` (the `ir` entry of the payload is never
examined).  Python's float division and the literal `0.15` are embedded
exactly over `ℚ`; the checked scenarios sit far from the threshold, so
double rounding cannot flip any of the comparisons proved here. -/

/-- The three channels the validator iterates (`for channel in
['x','y','z']`). -/
inductive Channel where
  | x : Channel
  | y : Channel
  | z : Channel
deriving DecidableEq

/-- A calibration object of the status payload; each channel may be
absent.  `ir` is part of the payload but never read by the validator. -/
structure CalData where
  x : Option ℚ := none
  y : Option ℚ := none
  z : Option ℚ := none
  ir : Option ℚ := none
deriving DecidableEq

/-- `cal.get(channel, default)` lookup. -/
def CalData.channel (c : CalData) : Channel → Option ℚ
  | .x => c.x
  | .y => c.y
  | .z => c.z

/-- `black_value = black_cal.get(channel, 0)` (line 104). -/
def black_value (black : CalData) (ch : Channel) : ℚ :=
  (black.channel ch).getD 0

/-- `white_value = white_cal.get(channel, 65535)` (line 105): the
sentinel applies only when the channel is absent. -/
def white_value (white : CalData) (ch : Channel) : ℚ :=
  (white.channel ch).getD 65535

/-- `ratio = black_value / white_value if white_value > 0 else 1`
(line 106). -/
def channel_ratio (black white : CalData) (ch : Channel) : ℚ :=
  if 0 < white_value white ch then black_value black ch / white_value white ch
  else 1

/-- `validate_black_levels` (lines 103–114): returns the first channel
whose ratio exceeds `0.15` (the `BlackLevelTooHigh` failure), or `none`
when every channel passes. -/
def validate_black_levels (black white : CalData) : Option Channel :=
  [Channel.x, Channel.y, Channel.z].find? fun channel =>
    decide (15 / 100 < channel_ratio black white channel)

/-- The ratio as the claim words it (`ratio = black_channel /
white_channel`, with `white_channel` treated as the sentinel `65535` if
it is absent **or zero**); compared below against the source's
`channel_ratio`, which uses the sentinel only for an absent channel and
sets the ratio to `1` for a present zero. -/
def claim_ratio (black white : CalData) (ch : Channel) : ℚ :=
  let wv := (white.channel ch).getD 65535
  black_value black ch / (if wv = 0 then 65535 else wv)

/-! ## Claim C2 -/

/-- C2 counterexample: with `white.x` present and equal to `0` (and
`black.x = 500`), every ratio as the claim defines it is at most
`0.15`, so the claim predicts acceptance — but the code sets the ratio
of a non-positive present white channel to `1` and rejects with the `x`
channel. -/
theorem validate_black_levels_zero_white_counterexample :
    validate_black_levels
      { x := some 500, y := some 600, z := some 550 }
      { x := some 0, y := some 42000, z := some 41000 } = some Channel.x ∧
    (∀ ch : Channel,
      claim_ratio
        { x := some 500, y := some 600, z := some 550 }
        { x := some 0, y := some 42000, z := some 41000 } ch ≤ 15 / 100) := by
  constructor
  · norm_num [validate_black_levels, channel_ratio, white_value, black_value,
      CalData.channel, List.find?]
  · intro ch
    cases ch <;>
      norm_num [claim_ratio, black_value, CalData.channel]

/-- C2 amended: for each channel in `{x,y,z}` only (the `ir` entry is
never examined), the code computes `ratio = black/white` with `white`
defaulting to the sentinel `65535` only when absent, and with the ratio
set to `1` (hence failing) when the white channel is present but not
positive; validation succeeds exactly when every ratio is at most
`0.15`, and fails naming the first channel exceeding it.  The claim's
concrete scenarios hold: `black = {x:500,y:600,z:550}` against
`white = {x:40000,y:42000,z:41000}` passes, and black with `x = 7000`
against the same white fails on the `x` channel (`0.175 > 0.15`). -/
theorem validate_black_levels_spec :
    (∀ black white : CalData,
      (validate_black_levels black white = none ↔
        ∀ ch : Channel, channel_ratio black white ch ≤ 15 / 100) ∧
      (∀ irb irw : Option ℚ,
        validate_black_levels { black with ir := irb } { white with ir := irw } =
          validate_black_levels black white)) ∧
    validate_black_levels
      { x := some 500, y := some 600, z := some 550 }
      { x := some 40000, y := some 42000, z := some 41000 } = none ∧
    validate_black_levels
      { x := some 7000, y := some 600, z := some 550 }
      { x := some 40000, y := some 42000, z := some 41000 } = some Channel.x := by
  refine ⟨fun black white => ⟨⟨?_, ?_⟩, fun irb irw => rfl⟩, ?_, ?_⟩
  · intro h ch
    have hm : ch ∈ [Channel.x, Channel.y, Channel.z] := by cases ch <;> simp
    have := List.find?_eq_none.mp h ch hm
    simpa using this
  · intro h
    apply List.find?_eq_none.mpr
    intro ch _
    simpa using not_lt.mpr (h ch)
  · norm_num [validate_black_levels, channel_ratio, white_value, black_value,
      CalData.channel, List.find?]
  · norm_num [validate_black_levels, channel_ratio, white_value, black_value,
      CalData.channel, List.find?]

/-! ## BrightnessOptimizer (spec §4.4) -/

/-- Modelled from the spec: the BrightnessOptimizer loop itself is not
in the repository's Python sources (they only consume the
`brightnessOptimization` response field, e.g. `test_enhanced_scan_only.py`);
the controller lives in the excluded firmware.  Spec §4.4: the
proportional adjustment step
`new = clamp(current * target_mid / control_variable, 0, 255)`. -/
def optimizeStep (current : ℤ) (control_variable target_mid : ℚ) : ℤ :=
  min 255 (max 0 ⌊(current : ℚ) * target_mid / control_variable⌋)

/-- Modelled from the spec: the bounded iterative search of §4.4.  Each
iteration reads the control variable of the trajectory at the current
iteration index; if it lies in the target band the loop stops with
`in_range = true`, otherwise it adjusts the brightness proportionally
toward the target and repeats; when the hard iteration cap is exhausted
the loop returns the last attempted setting with `in_range = false`
rather than failing.  Result: `(brightness, in_range, iterations)`. -/
def optimizeLoop (traj : ℕ → ℚ) (tmin tmax : ℚ) : ℕ → ℕ → ℤ → ℤ × Bool × ℕ
  | 0, i, b => (b, false, i)
  | 1, i, b =>
      if tmin ≤ traj i ∧ traj i ≤ tmax then (b, true, i + 1) else (b, false, i + 1)
  | fuel + 2, i, b =>
      if tmin ≤ traj i ∧ traj i ≤ tmax then (b, true, i + 1)
      else
        optimizeLoop traj tmin tmax (fuel + 1) (i + 1)
          (optimizeStep b (traj i) ((tmin + tmax) / 2))

/-- Modelled from the spec: the optimizer run on a control-variable
trajectory `traj` with target band `[tmin, tmax]`, hard iteration cap
`cap` (design default 5–8) and initial brightness `b0`. -/
def brightness_optimize (traj : ℕ → ℚ) (tmin tmax : ℚ) (cap : ℕ) (b0 : ℤ) :
    ℤ × Bool × ℕ :=
  optimizeLoop traj tmin tmax cap 0 b0

/-- The sequence of settings the optimizer attempts: `n` proportional
adjustments applied from iteration index `i` on. -/
def attemptedFrom (traj : ℕ → ℚ) (target_mid : ℚ) : ℕ → ℕ → ℤ → ℤ
  | _, 0, b => b
  | i, n + 1, b => attemptedFrom traj target_mid (i + 1) n (optimizeStep b (traj i) target_mid)

lemma optimizeLoop_spec (traj : ℕ → ℚ) (tmin tmax : ℚ) :
    ∀ (fuel i : ℕ) (b : ℤ),
      (optimizeLoop traj tmin tmax fuel i b).2.2 ≤ i + fuel ∧
      ((∀ j, i ≤ j → j < i + fuel → ¬(tmin ≤ traj j ∧ traj j ≤ tmax)) →
        optimizeLoop traj tmin tmax fuel i b =
          (attemptedFrom traj ((tmin + tmax) / 2) i (fuel - 1) b, false, i + fuel)) := by
  intro fuel
  induction fuel using Nat.strong_induction_on with
  | _ fuel ih =>
    match fuel with
    | 0 =>
        intro i b
        exact ⟨by simp [optimizeLoop], fun _ => by simp [optimizeLoop, attemptedFrom]⟩
    | 1 =>
        intro i b
        by_cases hband : tmin ≤ traj i ∧ traj i ≤ tmax
        · exact ⟨by simp [optimizeLoop, hband],
            fun h => absurd hband (h i le_rfl (by omega))⟩
        · exact ⟨by simp [optimizeLoop, hband],
            fun _ => by simp [optimizeLoop, hband, attemptedFrom]⟩
    | n + 2 =>
        intro i b
        by_cases hband : tmin ≤ traj i ∧ traj i ≤ tmax
        · refine ⟨by simp [optimizeLoop, hband],
            fun h => absurd hband (h i le_rfl (by omega))⟩
        · have hrec := ih (n + 1) (by omega) (i + 1)
            (optimizeStep b (traj i) ((tmin + tmax) / 2))
          refine ⟨?_, ?_⟩
          · have := hrec.1
            simp only [optimizeLoop, hband, if_false]
            calc (optimizeLoop traj tmin tmax (n + 1) (i + 1)
                    (optimizeStep b (traj i) ((tmin + tmax) / 2))).2.2
                ≤ (i + 1) + (n + 1) := this
              _ = i + (n + 2) := by omega
          · intro h
            have h' : ∀ j, i + 1 ≤ j → j < (i + 1) + (n + 1) →
                ¬(tmin ≤ traj j ∧ traj j ≤ tmax) :=
              fun j hj1 hj2 => h j (by omega) (by omega)
            have heq := hrec.2 h'
            simp only [optimizeLoop, hband, if_false]
            rw [heq]
            have hn : (i + 1) + (n + 1) = i + (n + 2) := by omega
            have hatt : attemptedFrom traj ((tmin + tmax) / 2) i ((n + 2) - 1) b =
                attemptedFrom traj ((tmin + tmax) / 2) (i + 1) ((n + 1) - 1)
                  (optimizeStep b (traj i) ((tmin + tmax) / 2)) := by
              simp [attemptedFrom]
            rw [hn, hatt]

/-! ## Claim C9 -/

/-- C9: for every control-variable trajectory, every target band, every
cap and every initial setting, the optimizer terminates (it is a total
function) with an iteration count within the hard cap; and if the
control variable never enters the target band during the capped
iterations, it returns the last attempted setting with
`in_range = false` rather than failing. -/
theorem brightness_optimize_terminates_within_cap (traj : ℕ → ℚ)
    (tmin tmax : ℚ) (cap : ℕ) (b0 : ℤ) :
    (brightness_optimize traj tmin tmax cap b0).2.2 ≤ cap ∧
    ((∀ j, j < cap → ¬(tmin ≤ traj j ∧ traj j ≤ tmax)) →
      brightness_optimize traj tmin tmax cap b0 =
        (attemptedFrom traj ((tmin + tmax) / 2) 0 (cap - 1) b0, false, cap)) := by
  have h := optimizeLoop_spec traj tmin tmax cap 0 b0
  refine ⟨by simpa using h.1, fun hout => ?_⟩
  have := h.2 (fun j _ hj => hout j (by simpa using hj))
  simpa [brightness_optimize] using this

/-- Witness for C9: a trajectory stuck at `1000` against the band
`[0, 1]` with cap `5` and initial brightness `128`. -/
theorem brightness_optimize_terminates_within_cap_witness :
    (brightness_optimize (fun _ => (1000 : ℚ)) 0 1 5 128).2.2 ≤ 5 ∧
    brightness_optimize (fun _ => (1000 : ℚ)) 0 1 5 128 =
      (attemptedFrom (fun _ => (1000 : ℚ)) ((0 + 1) / 2) 0 (5 - 1) 128, false, 5) :=
  ⟨(brightness_optimize_terminates_within_cap (fun _ => (1000 : ℚ)) 0 1 5 128).1,
   (brightness_optimize_terminates_within_cap (fun _ => (1000 : ℚ)) 0 1 5 128).2
     (fun j _ => by norm_num)⟩
